import Mathlib

/-!
Verification development for the real-time synchronization layer of the
kalix diary/task service: the WebSocket connection registry
(`apps/api/src/ws/connections.ts`), the per-socket session/authentication
state machine and command dispatcher (`wsHandler` in
`apps/api/src/middleware/auth.ts` — the WebSocket part of that file), and
the message schemas (`packages/shared/src/schemas`, WebSocket section).

Modelling conventions:
* A socket handle is a `Nat`; its transport `readyState` is read from an
  environment function `ready : Nat → Nat` (the `ws` library encodes
  OPEN as `1`).
* JavaScript `Map` is an insertion-ordered association list: `get` is the
  first (unique) match, `set` replaces in place or appends, `delete`
  filters the key out.  `WeakMap` is modelled by the same structure (its
  weakness only affects garbage collection, which has no observable
  effect on the operations verified here).
* A JS `Set` of freshly allocated objects is a list of `WSConn` values
  carrying a unique allocation identifier `connId`, so that object
  identity is decidable equality on `connId`-bearing records.
-/

namespace Kalix

/-- JS `Map.prototype.get`: the value at the first matching key. -/
def mapGet {κ ν : Type} [DecidableEq κ] (k : κ) : List (κ × ν) → Option ν
  | [] => none
  | e :: rest => if e.1 = k then some e.2 else mapGet k rest

/-- JS `Map.prototype.has`. -/
def mapHas {κ ν : Type} [DecidableEq κ] (k : κ) (l : List (κ × ν)) : Bool :=
  (mapGet k l).isSome

/-- JS `Map.prototype.set`: replace the entry in place when the key is
present, append otherwise. -/
def mapSet {κ ν : Type} [DecidableEq κ] (k : κ) (v : ν) (l : List (κ × ν)) :
    List (κ × ν) :=
  if mapHas k l then l.map (fun e => if e.1 = k then (k, v) else e)
  else l ++ [(k, v)]

/-- JS `Map.prototype.delete`: remove every entry with the key (at most
one when keys are unique). -/
def mapDelete {κ ν : Type} [DecidableEq κ] (k : κ) (l : List (κ × ν)) :
    List (κ × ν) :=
  l.filter (fun e => ¬ e.1 = k)

/-- One entry of a per-user connection set: the `WSConnection` record of
`connections.ts` (`socket`, `userId`, `authenticatedAt`).  `connId` is the
allocation identity of the JS object (each `addConnection` allocates a
fresh record); `authenticatedAt` is not observed by any verified
operation and is therefore not carried. -/
structure WSConn where
  connId : Nat
  socket : Nat
  userId : String
  deriving DecidableEq, Repr

/-- State of the `WSConnectionManager` singleton: `connections` is the
`Map<userId, Set<WSConnection>>`, `socketMap` the
`WeakMap<WebSocket, WSConnection>`, and `nextConnId` the allocation
counter that realizes JS object identity. -/
structure Manager where
  connections : List (String × List WSConn)
  socketMap : List (Nat × WSConn)
  nextConnId : Nat
  deriving DecidableEq, Repr

/-- The freshly constructed manager (both maps empty). -/
def Manager.init : Manager := ⟨[], [], 0⟩

/-- `WSConnectionManager.addConnection`: allocate a fresh connection
record, point the socket map at it, create the user's set if absent, and
add the record to that set. -/
def addConnection (m : Manager) (socket : Nat) (userId : String) : Manager :=
  let conn : WSConn := ⟨m.nextConnId, socket, userId⟩
  let socketMap := mapSet socket conn m.socketMap
  let base :=
    if mapHas userId m.connections then m.connections
    else mapSet userId [] m.connections
  let conns :=
    match mapGet userId base with
    | some s => mapSet userId (s ++ [conn]) base
    | none => base
  ⟨conns, socketMap, m.nextConnId + 1⟩

/-- `WSConnectionManager.removeConnection`: look up the reverse mapping;
if absent, do nothing.  Otherwise delete the record from its user's set
and drop the user key when the set became empty.  The socket map is left
untouched. -/
def removeConnection (m : Manager) (socket : Nat) : Manager :=
  match mapGet socket m.socketMap with
  | none => m
  | some conn =>
    match mapGet conn.userId m.connections with
    | none => m
    | some s =>
      let s' := s.filter (fun c => ¬ c = conn)
      let conns :=
        if s'.length = 0 then mapDelete conn.userId m.connections
        else mapSet conn.userId s' m.connections
      ⟨conns, m.socketMap, m.nextConnId⟩

/-- `WSConnectionManager.getUserId`. -/
def getUserId (m : Manager) (socket : Nat) : Option String :=
  (mapGet socket m.socketMap).map (·.userId)

/-- `WSConnectionManager.getConnectionCount`. -/
def getConnectionCount (m : Manager) (userId : String) : Nat :=
  match mapGet userId m.connections with
  | some s => s.length
  | none => 0

/-- `WSConnectionManager.getTotalConnections`. -/
def getTotalConnections (m : Manager) : Nat :=
  (m.connections.map (fun e => e.2.length)).sum

/-! ## Entities and server frames

Rows returned by the storage collaborators.  The spec declares storage an
external collaborator ("interfaces only"): `TodoStore.create/update/complete
(userId, ...) -> Todo | null` (null = not found, scoped by userId).  The
row models below keep exactly the columns the WebSocket layer observes:
`id` and `user_id` (the scoping columns of the services' SQL `WHERE id =
$1 AND user_id = $2`), plus the principal payload column of each entity
(`title` / `raw_text` / `mood_score`) and the todo `status` that
`complete` mutates.  Columns never observed by the protocol claims
(timestamps, tags, priority, ...) are elided. -/

/-- A row of `dear_diary.todos`, reduced as described above. -/
structure TodoRow where
  id : String
  userId : String
  title : String
  status : String
  deriving DecidableEq, Repr

/-- A row of `dear_diary.diary_entries`, reduced as described above. -/
structure DiaryRow where
  id : String
  userId : String
  rawText : String
  deriving DecidableEq, Repr

/-- A row of `dear_diary.mood_logs`, reduced as described above. -/
structure MoodRow where
  id : String
  userId : String
  moodScore : Int
  deriving DecidableEq, Repr

/-- The entity carried in an ack's `data` field or a broadcast event. -/
inductive Entity where
  | todoE (t : TodoRow)
  | diaryE (d : DiaryRow)
  | moodE (m : MoodRow)
  deriving DecidableEq, Repr

/-- A server→client frame (`wsServerMessageSchema`): `auth.ok`,
`auth.error`, success ack, error ack, or broadcast event. -/
inductive ServerMsg where
  | authOk
  | authError (message : String)
  | ackOk (requestId : String) (data : Entity)
  | ackErr (requestId : String) (code : String) (errMessage : String)
  | event (ty : String) (data : Entity)
  deriving DecidableEq, Repr

/-- `JSON.stringify` of an entity (the fields the row model carries). -/
def serializeEntity : Entity → String
  | .todoE t =>
      "\x7b\"id\":\"" ++ t.id ++ "\",\"userId\":\"" ++ t.userId ++
      "\",\"title\":\"" ++ t.title ++ "\",\"status\":\"" ++ t.status ++ "\"\x7d"
  | .diaryE d =>
      "\x7b\"id\":\"" ++ d.id ++ "\",\"userId\":\"" ++ d.userId ++
      "\",\"rawText\":\"" ++ d.rawText ++ "\"\x7d"
  | .moodE m =>
      "\x7b\"id\":\"" ++ m.id ++ "\",\"userId\":\"" ++ m.userId ++
      "\",\"moodScore\":" ++ toString m.moodScore ++ "\x7d"

/-- `JSON.stringify` of a server frame, in the key order the handler
builds the object literals. -/
def serializeMsg : ServerMsg → String
  | .authOk => "\x7b\"type\":\"auth.ok\"\x7d"
  | .authError msg => "\x7b\"type\":\"auth.error\",\"message\":\"" ++ msg ++ "\"\x7d"
  | .ackOk rid d =>
      "\x7b\"type\":\"ack\",\"requestId\":\"" ++ rid ++
      "\",\"ok\":true,\"data\":" ++ serializeEntity d ++ "\x7d"
  | .ackErr rid code msg =>
      "\x7b\"type\":\"ack\",\"requestId\":\"" ++ rid ++
      "\",\"ok\":false,\"error\":\x7b\"code\":\"" ++ code ++
      "\",\"message\":\"" ++ msg ++ "\"\x7d\x7d"
  | .event ty d =>
      "\x7b\"type\":\"" ++ ty ++ "\",\"data\":" ++ serializeEntity d ++ "\x7d"

/-- `WSConnectionManager.broadcastToUser`: look up the user's set; if
absent or empty, no sends.  Otherwise serialize the message once and send
the payload to every connection whose socket `readyState` is `1` (OPEN);
other sockets are skipped.  Returns the list of performed transport-level
sends `(socket, bytes)` in iteration order; the manager state is not
written (the method only reads it). -/
def broadcastToUser (m : Manager) (ready : Nat → Nat) (userId : String)
    (msg : ServerMsg) : List (Nat × String) :=
  match mapGet userId m.connections with
  | none => []
  | some s =>
    if s.length = 0 then []
    else
      let payload := serializeMsg msg
      s.filterMap (fun c => if ready c.socket = 1 then some (c.socket, payload) else none)

/-- `WSConnectionManager.send`: one transport-level send when the socket
is OPEN, nothing otherwise. -/
def sendTo (ready : Nat → Nat) (socket : Nat) (msg : ServerMsg) :
    List (Nat × String) :=
  if ready socket = 1 then [(socket, serializeMsg msg)] else []

/-! ## Client frames

Inbound frames are classified by which of the mutually exclusive zod
schemas of `packages/shared/src/schemas` (WebSocket section) they
validate against — the schemas are discriminated by the literal `type`
field, so at most one can accept any given JSON value.  A constructor
below stands for a frame that `safeParse` accepts for that schema, and it
carries the parsed fields (extra keys such as a `userId` next to an auth
frame's `token` are stripped by zod and carried separately).  Frames that
are valid JSON but validate against none of the command schemas are
`unmatched`, keeping the raw `type` and `requestId` string fields the
handler still reads off the untyped object. -/

/-- `z.string().uuid()`: the 8-4-4-4-12 hyphenated hex format. -/
def isHexDigit (c : Char) : Bool :=
  c.isDigit || (('a' ≤ c) && (c ≤ 'f')) || (('A' ≤ c) && (c ≤ 'F'))

/-- Whether a string passes the zod `uuid` check. -/
def isUuid (s : String) : Bool :=
  s.toList.length = 36 &&
    (s.toList.enum.all (fun p =>
      if p.1 = 8 ∨ p.1 = 13 ∨ p.1 = 18 ∨ p.1 = 23 then p.2 = '-'
      else isHexDigit p.2))

/-- Parsed `data` of `createTodoSchema` (the fields the row model keeps). -/
structure CreateTodo where
  title : String
  deriving DecidableEq, Repr

/-- Parsed `data` of `updateTodoSchema` (all fields optional; only the
ones the row model keeps). -/
structure UpdateTodo where
  title : Option String := none
  status : Option String := none
  deriving DecidableEq, Repr

/-- Parsed `data` of `createDiaryEntrySchema`. -/
structure CreateDiary where
  rawText : String
  deriving DecidableEq, Repr

/-- Parsed `data` of `createMoodLogSchema`. -/
structure CreateMood where
  moodScore : Int
  deriving DecidableEq, Repr

/-- An inbound WebSocket frame after `JSON.parse` and schema
classification. -/
inductive InboundMsg where
  | invalidJson
  | authFrame (token : String) (extraUserId : Option String)
  | todoCreate (requestId : String) (d : CreateTodo)
  | todoUpdate (requestId : String) (todoId : String) (d : UpdateTodo)
  | todoComplete (requestId : String) (todoId : String)
  | diaryCreate (requestId : String) (d : CreateDiary)
  | moodLog (requestId : String) (d : CreateMood)
  | unmatched (ty : Option String) (requestId : Option String)
  deriving DecidableEq, Repr

/-- The schema guarantee carried by a command constructor: every
`requestId` (and `todoId` where present) validated against
`z.string().uuid()`.  Frames produced by a real `safeParse` always
satisfy this; it is stated separately because the constructors carry the
parsed strings. -/
def SchemaOk : InboundMsg → Prop
  | .todoCreate rid _ => isUuid rid = true
  | .todoUpdate rid tid _ => isUuid rid = true ∧ isUuid tid = true
  | .todoComplete rid tid => isUuid rid = true ∧ isUuid tid = true
  | .diaryCreate rid _ => isUuid rid = true
  | .moodLog rid _ => isUuid rid = true
  | _ => True

instance (m : InboundMsg) : Decidable (SchemaOk m) := by
  unfold SchemaOk; cases m <;> infer_instance

/-- Whether a frame is one of the five command shapes (a "command frame"
in the spec's glossary: a mutation request carrying a correlation id). -/
def isCommandFrame : InboundMsg → Bool
  | .todoCreate _ _ => true
  | .todoUpdate _ _ _ => true
  | .todoComplete _ _ => true
  | .diaryCreate _ _ => true
  | .moodLog _ _ => true
  | _ => false

/-- The correlation id carried by a command frame. -/
def frameRequestId : InboundMsg → Option String
  | .todoCreate rid _ => some rid
  | .todoUpdate rid _ _ => some rid
  | .todoComplete rid _ => some rid
  | .diaryCreate rid _ => some rid
  | .moodLog rid _ => some rid
  | .unmatched _ rid => rid
  | _ => none

/-! ## Storage collaborators

List-backed model of the storage interface consumed by the dispatcher
(spec §6): `TodoStore.create/update/complete(userId, ...) -> Todo | null`
(null = not found, *scoped by userId*: the services' SQL uses
`WHERE id = $1 AND user_id = $2`), `DiaryStore.create`,
`MoodStore.create`, and `UserService.getById`.  `dbOk = false` makes
every database call throw, modelling the rejected-promise path the
dispatcher's `try/catch` converts to an `INTERNAL_ERROR` ack. -/
structure Store where
  users : List String
  todos : List TodoRow
  diaries : List DiaryRow
  moods : List MoodRow
  nextId : Nat
  dbOk : Bool
  deriving DecidableEq, Repr

/-- `TodoService.create(userId, data)`: insert a fresh open todo owned by
`userId` and return it. -/
def todoSvcCreate (st : Store) (userId : String) (d : CreateTodo) :
    Except Unit (TodoRow × Store) :=
  if st.dbOk then
    let row : TodoRow := ⟨"todo-" ++ toString st.nextId, userId, d.title, "open"⟩
    .ok (row, { st with todos := st.todos ++ [row], nextId := st.nextId + 1 })
  else .error ()

/-- `TodoService.update(userId, id, data)`: `UPDATE ... WHERE id = $1 AND
user_id = $2 RETURNING *`; `none` when no row matched. -/
def todoSvcUpdate (st : Store) (userId : String) (id : String)
    (d : UpdateTodo) : Except Unit (Option TodoRow × Store) :=
  if st.dbOk then
    match st.todos.find? (fun t => t.id = id && t.userId = userId) with
    | none => .ok (none, st)
    | some t =>
      let t' : TodoRow :=
        { t with title := d.title.getD t.title, status := d.status.getD t.status }
      .ok (some t', { st with todos := st.todos.map (fun u => if u.id = id && u.userId = userId then t' else u) })
  else .error ()

/-- `TodoService.complete(userId, id)`: `UPDATE ... SET status = 'done'
... WHERE id = $1 AND user_id = $2 RETURNING *`; `none` when no row
matched. -/
def todoSvcComplete (st : Store) (userId : String) (id : String) :
    Except Unit (Option TodoRow × Store) :=
  if st.dbOk then
    match st.todos.find? (fun t => t.id = id && t.userId = userId) with
    | none => .ok (none, st)
    | some t =>
      let t' : TodoRow := { t with status := "done" }
      .ok (some t', { st with todos := st.todos.map (fun u => if u.id = id && u.userId = userId then t' else u) })
  else .error ()

/-- `DiaryService.create(userId, data)`. -/
def diarySvcCreate (st : Store) (userId : String) (d : CreateDiary) :
    Except Unit (DiaryRow × Store) :=
  if st.dbOk then
    let row : DiaryRow := ⟨"diary-" ++ toString st.nextId, userId, d.rawText⟩
    .ok (row, { st with diaries := st.diaries ++ [row], nextId := st.nextId + 1 })
  else .error ()

/-- `MoodService.create(userId, data)`. -/
def moodSvcCreate (st : Store) (userId : String) (d : CreateMood) :
    Except Unit (MoodRow × Store) :=
  if st.dbOk then
    let row : MoodRow := ⟨"mood-" ++ toString st.nextId, userId, d.moodScore⟩
    .ok (row, { st with moods := st.moods ++ [row], nextId := st.nextId + 1 })
  else .error ()

/-- `UserService.getById(id)`: whether a user row exists (the handler
only tests the result for null). -/
def userSvcGetById (st : Store) (id : String) : Except Unit Bool :=
  if st.dbOk then .ok (st.users.contains id) else .error ()

/-! ## The per-socket session handler (`wsHandler`) -/

/-- `AUTH_TIMEOUT_MS` from `middleware/auth.ts`. -/
def AUTH_TIMEOUT_MS : Nat := 10000

/-- The close code `wsHandler` passes to `socket.close` on authentication
timeout. -/
def authTimeoutCloseCode : Nat := 4001

/-- The WebSocket normal-closure close code (RFC 6455). -/
def normalCloseCode : Nat := 1000

/-- A decoded JWT payload as `fastify.jwt.verify` returns it: the
subject and the token-kind field (named `type` in the source). -/
structure JwtPayload where
  sub : String
  typ : String
  deriving DecidableEq, Repr

/-- Process environment and JWT verifier consumed by `wsHandler`:
`process.env['SERVICE_TOKEN']` (`none` = unset) and `fastify.jwt.verify`
(`none` = verification throws). -/
structure AuthEnv where
  serviceToken : Option String
  jwtVerify : String → Option JwtPayload

/-- The guard `if (serviceToken && token === serviceToken)`: the
environment variable must be set and truthy (non-empty) and equal to the
presented token. -/
def serviceTokenMatches (env : AuthEnv) (token : String) : Bool :=
  match env.serviceToken with
  | some s => (¬ s = "") && token = s
  | none => false

/-- The per-socket session state of `wsHandler`: the `authenticated` and
`userId` locals, whether the auth-deadline `setTimeout` is still pending
(`timerActive`, cleared by `clearTimeout` or by firing), and whether the
socket has been closed (`closed`). -/
structure Session where
  authenticated : Bool
  userId : Option String
  timerActive : Bool
  closed : Bool
  deriving DecidableEq, Repr

/-- Session state right after the socket opens: `Connecting`, deadline
timer armed. -/
def Session.connecting : Session :=
  ⟨false, none, true, false⟩

/-- An effect the handler performs on the connection layer: a targeted
send, a user-group broadcast, or a `socket.close(code, reason)`. -/
inductive Action where
  | sendA (socket : Nat) (msg : ServerMsg)
  | broadcastA (userId : String) (msg : ServerMsg)
  | closeA (socket : Nat) (code : Nat) (reason : String)
  deriving DecidableEq, Repr

/-- `msg.requestId || 'unknown'` — JS truthiness on the string field. -/
def ridOr (r : Option String) : String :=
  match r with
  | some s => if s = "" then "unknown" else s
  | none => "unknown"

/-- The `type` string the UNKNOWN_TYPE diagnostic interpolates
(`msg.type`, which prints as `undefined` when the field is absent). -/
def tyOf : InboundMsg → String
  | .authFrame _ _ => "auth"
  | .todoCreate _ _ => "todo.create"
  | .todoUpdate _ _ _ => "todo.update"
  | .todoComplete _ _ => "todo.complete"
  | .diaryCreate _ _ => "diary.create"
  | .moodLog _ _ => "mood.log"
  | .unmatched ty _ => ty.getD "undefined"
  | .invalidJson => "undefined"

/-- Result of handling one inbound frame: the updated session, registry
and storage states, and the ordered list of effects. -/
structure HandleResult where
  sess : Session
  mgr : Manager
  store : Store
  actions : List Action
  deriving Repr

/-- The body of `wsHandler`'s `socket.on('message', ...)` handler:
JSON-parse failure is acked first; while unauthenticated only the auth
schema is tried (service tokens are rejected outright, then JWT
verification, token-kind check and user lookup); once authenticated each
frame is dispatched to the first command schema it validates against,
acked, and its mutation broadcast; service exceptions become
`INTERNAL_ERROR` acks. -/
def handleMessage (env : AuthEnv) (mgr : Manager) (store : Store)
    (sess : Session) (socket : Nat) (msg : InboundMsg) : HandleResult :=
  match msg with
  | .invalidJson =>
      ⟨sess, mgr, store,
       [.sendA socket (.ackErr "unknown" "INVALID_JSON" "Invalid JSON")]⟩
  | m =>
    if sess.authenticated = false then
      match m with
      | .authFrame token _ =>
          if serviceTokenMatches env token then
            ⟨sess, mgr, store,
             [.sendA socket (.authError "Service token not supported for WebSocket. Use JWT.")]⟩
          else
            match env.jwtVerify token with
            | none =>
                ⟨sess, mgr, store,
                 [.sendA socket (.authError "Invalid or expired token")]⟩
            | some payload =>
                if ¬ payload.typ = "access" then
                  ⟨sess, mgr, store,
                   [.sendA socket (.authError "Invalid token type. Use access token.")]⟩
                else
                  match userSvcGetById store payload.sub with
                  | .error _ =>
                      ⟨sess, mgr, store,
                       [.sendA socket (.authError "Invalid or expired token")]⟩
                  | .ok false =>
                      ⟨sess, mgr, store,
                       [.sendA socket (.authError "User not found")]⟩
                  | .ok true =>
                      ⟨⟨true, some payload.sub, false, sess.closed⟩,
                       addConnection mgr socket payload.sub, store,
                       [.sendA socket .authOk]⟩
      | _ =>
          ⟨sess, mgr, store,
           [.sendA socket (.authError "Invalid auth message format")]⟩
    else
      match sess.userId with
      | none => ⟨sess, mgr, store, []⟩
      | some uid =>
        let requestId := ridOr (frameRequestId m)
        match m with
        | .todoCreate _ d =>
            match todoSvcCreate store uid d with
            | .error _ =>
                ⟨sess, mgr, store,
                 [.sendA socket (.ackErr requestId "INTERNAL_ERROR" "Internal server error")]⟩
            | .ok (todo, store') =>
                ⟨sess, mgr, store',
                 [.sendA socket (.ackOk requestId (.todoE todo)),
                  .broadcastA uid (.event "event.todo.created" (.todoE todo))]⟩
        | .todoUpdate _ todoId d =>
            match todoSvcUpdate store uid todoId d with
            | .error _ =>
                ⟨sess, mgr, store,
                 [.sendA socket (.ackErr requestId "INTERNAL_ERROR" "Internal server error")]⟩
            | .ok (none, store') =>
                ⟨sess, mgr, store',
                 [.sendA socket (.ackErr requestId "NOT_FOUND" "Todo not found")]⟩
            | .ok (some todo, store') =>
                ⟨sess, mgr, store',
                 [.sendA socket (.ackOk requestId (.todoE todo)),
                  .broadcastA uid (.event "event.todo.updated" (.todoE todo))]⟩
        | .todoComplete _ todoId =>
            match todoSvcComplete store uid todoId with
            | .error _ =>
                ⟨sess, mgr, store,
                 [.sendA socket (.ackErr requestId "INTERNAL_ERROR" "Internal server error")]⟩
            | .ok (none, store') =>
                ⟨sess, mgr, store',
                 [.sendA socket (.ackErr requestId "NOT_FOUND" "Todo not found")]⟩
            | .ok (some todo, store') =>
                ⟨sess, mgr, store',
                 [.sendA socket (.ackOk requestId (.todoE todo)),
                  .broadcastA uid (.event "event.todo.completed" (.todoE todo))]⟩
        | .diaryCreate _ d =>
            match diarySvcCreate store uid d with
            | .error _ =>
                ⟨sess, mgr, store,
                 [.sendA socket (.ackErr requestId "INTERNAL_ERROR" "Internal server error")]⟩
            | .ok (entry, store') =>
                ⟨sess, mgr, store',
                 [.sendA socket (.ackOk requestId (.diaryE entry)),
                  .broadcastA uid (.event "event.diary.created" (.diaryE entry))]⟩
        | .moodLog _ d =>
            match moodSvcCreate store uid d with
            | .error _ =>
                ⟨sess, mgr, store,
                 [.sendA socket (.ackErr requestId "INTERNAL_ERROR" "Internal server error")]⟩
            | .ok (mood, store') =>
                ⟨sess, mgr, store',
                 [.sendA socket (.ackOk requestId (.moodE mood)),
                  .broadcastA uid (.event "event.mood.logged" (.moodE mood))]⟩
        | .invalidJson => ⟨sess, mgr, store, []⟩
        | _ =>
            ⟨sess, mgr, store,
             [.sendA socket (.ackErr requestId "UNKNOWN_TYPE"
                ("Unknown message type: " ++ tyOf m))]⟩

/-! ## Socket event traces

`wsHandler` installs three callbacks: the message handler above, the
auth-deadline timer, and the close/error handler.  A session's life is a
sequence of these callback invocations; the runtime guarantees that a
cleared or fired timer never fires (again) and that no callback runs for
a socket after it has been closed (`eventAllowed`). -/

/-- One callback invocation on a socket: an inbound frame, the
auth-deadline timer firing, or the close/error event (both run the same
cleanup). -/
inductive SocketEvent where
  | msgEvt (m : InboundMsg)
  | timerFire
  | closeEvt
  deriving DecidableEq, Repr

/-- Everything one socket's callbacks can read or write: its session
state, the shared registry, and the shared storage. -/
structure SessionConfig where
  sess : Session
  mgr : Manager
  store : Store
  deriving Repr

/-- One callback invocation.  `timerFire` is the `setTimeout` body: it
checks `authenticated` and, when still unauthenticated, sends
`auth.error` and calls `socket.close(4001, 'Authentication timeout')`.
`closeEvt` is the `close`/`error` handler: `clearTimeout` plus
`removeConnection`. -/
def stepEvent (env : AuthEnv) (c : SessionConfig) (socket : Nat) :
    SocketEvent → SessionConfig × List Action
  | .msgEvt m =>
      let r := handleMessage env c.mgr c.store c.sess socket m
      (⟨r.sess, r.mgr, r.store⟩, r.actions)
  | .timerFire =>
      if c.sess.authenticated = false then
        (⟨⟨c.sess.authenticated, c.sess.userId, false, true⟩, c.mgr, c.store⟩,
         [.sendA socket (.authError "Authentication timeout"),
          .closeA socket authTimeoutCloseCode "Authentication timeout"])
      else
        (⟨⟨c.sess.authenticated, c.sess.userId, false, c.sess.closed⟩, c.mgr, c.store⟩, [])
  | .closeEvt =>
      (⟨⟨c.sess.authenticated, c.sess.userId, false, true⟩,
        removeConnection c.mgr socket, c.store⟩, [])

/-- Which callback invocations the runtime can deliver in a given
session state: frames and the close event only while the socket is not
closed, the timer only while its `setTimeout` is pending. -/
def eventAllowed (s : Session) : SocketEvent → Bool
  | .msgEvt _ => ¬ s.closed
  | .timerFire => s.timerActive
  | .closeEvt => ¬ s.closed

/-- Run a sequence of callback invocations, concatenating their effect
lists in order. -/
def runTrace (env : AuthEnv) (socket : Nat) :
    SessionConfig → List SocketEvent → SessionConfig × List Action
  | c, [] => (c, [])
  | c, e :: es =>
      let s := stepEvent env c socket e
      let r := runTrace env socket s.1 es
      (r.1, s.2 ++ r.2)

/-- A runtime-deliverable sequence of callback invocations from a given
configuration. -/
def validTrace (env : AuthEnv) (socket : Nat) :
    SessionConfig → List SocketEvent → Bool
  | _, [] => true
  | c, e :: es =>
      eventAllowed c.sess e && validTrace env socket (stepEvent env c socket e).1 es

/-! ## Delivery and frame classification helpers -/

/-- Transport-level delivery of one effect: a targeted send goes through
`WSConnectionManager.send`, a broadcast through `broadcastToUser`, and a
`socket.close` transmits no payload. -/
def deliver (mgr : Manager) (ready : Nat → Nat) : Action → List (Nat × String)
  | .sendA sock msg => sendTo ready sock msg
  | .broadcastA uid msg => broadcastToUser mgr ready uid msg
  | .closeA _ _ _ => []

/-- Transport-level delivery of an effect list, in order. -/
def deliverAll (mgr : Manager) (ready : Nat → Nat) (acts : List Action) :
    List (Nat × String) :=
  (acts.map (deliver mgr ready)).flatten

/-- Whether a server frame is an acknowledgment (`type:"ack"`). -/
def isAck : ServerMsg → Bool
  | .ackOk _ _ => true
  | .ackErr _ _ _ => true
  | _ => false

/-- Whether a server frame is a success acknowledgment (`ok:true`). -/
def isOkAck : ServerMsg → Bool
  | .ackOk _ _ => true
  | _ => false

/-- The `requestId` field of an acknowledgment. -/
def ackRequestId : ServerMsg → Option String
  | .ackOk rid _ => some rid
  | .ackErr rid _ _ => some rid
  | _ => none

/-- The acknowledgments an effect list sends to one particular socket
(acks are only ever emitted through targeted sends). -/
def acksToSocket (acts : List Action) (sock : Nat) : List ServerMsg :=
  acts.filterMap (fun a =>
    match a with
    | .sendA s m => if s = sock && isAck m then some m else none
    | _ => none)

/-- Whether an effect list contains a success ack (`ok:true`) addressed
to any socket. -/
def hasOkAck (acts : List Action) : Bool :=
  acts.any (fun a =>
    match a with
    | .sendA _ m => isOkAck m
    | .broadcastA _ m => isOkAck m
    | .closeA _ _ _ => false)

/-- Whether an effect list contains a broadcast. -/
def hasBroadcast (acts : List Action) : Bool :=
  acts.any (fun a =>
    match a with
    | .broadcastA _ _ => true
    | _ => false)

/-- Whether an effect list contains a `socket.close` with the given
code. -/
def hasCloseWithCode (acts : List Action) (code : Nat) : Bool :=
  acts.any (fun a =>
    match a with
    | .closeA _ c _ => c = code
    | _ => false)

/-- A register/unregister call on the registry, for reasoning about
arbitrary operation sequences. -/
inductive RegOp where
  | addOp (socket : Nat) (userId : String)
  | removeOp (socket : Nat)
  deriving DecidableEq, Repr

/-- Apply a sequence of register/unregister calls. -/
def applyOps : Manager → List RegOp → Manager
  | m, [] => m
  | m, .addOp s u :: ops => applyOps (addConnection m s u) ops
  | m, .removeOp s :: ops => applyOps (removeConnection m s) ops

/-- The grouping-map invariant of claim C6: no key maps to an empty
connection set. -/
def NoEmptyGroups (m : Manager) : Prop :=
  ∀ u s, mapGet u m.connections = some s → ¬ s = []

/-- Whether the mutation of a command frame succeeds against the given
store: creations succeed whenever the database call does, updates and
completions additionally need a todo row with that id owned by the
session's user. -/
def mutationSucceeds (st : Store) (uid : String) : InboundMsg → Bool
  | .todoCreate _ _ => st.dbOk
  | .todoUpdate _ tid _ =>
      st.dbOk && st.todos.any (fun t => t.id = tid && t.userId = uid)
  | .todoComplete _ tid =>
      st.dbOk && st.todos.any (fun t => t.id = tid && t.userId = uid)
  | .diaryCreate _ _ => st.dbOk
  | .moodLog _ _ => st.dbOk
  | _ => false

/-- The broadcast event type the dispatcher pairs with each command. -/
def eventNameOf : InboundMsg → String
  | .todoCreate _ _ => "event.todo.created"
  | .todoUpdate _ _ _ => "event.todo.updated"
  | .todoComplete _ _ => "event.todo.completed"
  | .diaryCreate _ _ => "event.diary.created"
  | .moodLog _ _ => "event.mood.logged"
  | _ => ""

/-- Concrete inputs shared by witness theorems: an environment with no
service token and a JWT verifier that accepts nothing, a store holding
just the user `"u1"`, an authenticated session for `"u1"`, and a sample
uuid requestId. -/
def envNoSvc : AuthEnv := ⟨none, fun _ => none⟩

/-- A store holding only the user `"u1"` (see `envNoSvc`). -/
def storeU1 : Store := ⟨["u1"], [], [], [], 0, true⟩

/-- A session authenticated as `"u1"` (see `envNoSvc`). -/
def sessAuthU1 : Session := ⟨true, some "u1", false, false⟩

/-- A sample uuid used as a requestId by witnesses (see `envNoSvc`). -/
def uuidEx : String := "123e4567-e89b-12d3-a456-426614174000"

/-! ## Association-list lemmas (JS `Map` semantics) -/

theorem mapGet_cons {κ ν : Type} [DecidableEq κ] (k : κ) (e : κ × ν)
    (l : List (κ × ν)) :
    mapGet k (e :: l) = if e.1 = k then some e.2 else mapGet k l := rfl

theorem mapGet_none_not_mem {κ ν : Type} [DecidableEq κ] {k : κ} :
    ∀ {l : List (κ × ν)}, mapGet k l = none → ∀ e ∈ l, ¬ e.1 = k := by
  intro l
  induction l with
  | nil => intro _ e he; cases he
  | cons e rest ih =>
    intro h f hf
    rw [mapGet_cons] at h
    by_cases hk : e.1 = k
    · simp [hk] at h
    · cases hf with
      | head => exact hk
      | tail _ hf => exact ih (by simpa [hk] using h) f hf

theorem mapGet_append_ne {κ ν : Type} [DecidableEq κ] {k k' : κ} (v : ν)
    (h : ¬ k' = k) :
    ∀ l : List (κ × ν), mapGet k (l ++ [(k', v)]) = mapGet k l := by
  intro l
  induction l with
  | nil => simp [mapGet, h]
  | cons e rest ih =>
    by_cases hk : e.1 = k
    · simp [mapGet_cons, hk, ih]
    · simp [mapGet_cons, hk, ih]

theorem mapGet_append_self {κ ν : Type} [DecidableEq κ] {k : κ} (v : ν)
    {l : List (κ × ν)} (h : mapGet k l = none) :
    mapGet k (l ++ [(k, v)]) = some v := by
  induction l with
  | nil => simp [mapGet]
  | cons e rest ih =>
    rw [mapGet_cons] at h
    by_cases hk : e.1 = k
    · simp [hk] at h
    · rw [List.cons_append, mapGet_cons, if_neg hk]
      exact ih (by simpa [hk] using h)

theorem mapHas_false_iff {κ ν : Type} [DecidableEq κ] {k : κ}
    {l : List (κ × ν)} : mapHas k l = false ↔ mapGet k l = none := by
  unfold mapHas
  cases mapGet k l <;> simp

theorem mapHas_true_iff {κ ν : Type} [DecidableEq κ] {k : κ}
    {l : List (κ × ν)} : mapHas k l = true ↔ ∃ v, mapGet k l = some v := by
  unfold mapHas
  cases mapGet k l <;> simp

theorem mapGet_map_replace {κ ν : Type} [DecidableEq κ] (k : κ) (v : ν) :
    ∀ l : List (κ × ν),
      mapGet k (l.map (fun e => if e.1 = k then (k, v) else e)) =
        if mapHas k l then some v else none := by
  intro l
  induction l with
  | nil => simp [mapGet, mapHas]
  | cons e rest ih =>
    by_cases hk : e.1 = k
    · simp [mapGet_cons, mapHas, hk]
    · have hhas : mapHas k (e :: rest) = mapHas k rest := by
        unfold mapHas; rw [mapGet_cons, if_neg hk]
      rw [List.map_cons, if_neg hk, mapGet_cons, if_neg hk, ih, hhas]

theorem mapGet_map_replace_ne {κ ν : Type} [DecidableEq κ] {k k' : κ}
    (v : ν) (h : ¬ k' = k) :
    ∀ l : List (κ × ν),
      mapGet k' (l.map (fun e => if e.1 = k then (k, v) else e)) =
        mapGet k' l := by
  intro l
  induction l with
  | nil => rfl
  | cons e rest ih =>
    by_cases hk : e.1 = k
    · rw [List.map_cons, if_pos hk, mapGet_cons, mapGet_cons,
        if_neg (fun hh : (k, v).1 = k' => h hh.symm), ih,
        if_neg (fun hh : e.1 = k' => h (hh.symm.trans hk))]
    · rw [List.map_cons, if_neg hk, mapGet_cons, mapGet_cons, ih]

theorem mapGet_mapSet_self {κ ν : Type} [DecidableEq κ] (k : κ) (v : ν)
    (l : List (κ × ν)) : mapGet k (mapSet k v l) = some v := by
  unfold mapSet
  by_cases h : mapHas k l
  · rw [if_pos h, mapGet_map_replace, if_pos h]
  · rw [if_neg h]
    exact mapGet_append_self v (mapHas_false_iff.mp (by simpa using h))

theorem mapGet_mapSet_ne {κ ν : Type} [DecidableEq κ] {k k' : κ} (v : ν)
    (h : ¬ k' = k) (l : List (κ × ν)) :
    mapGet k' (mapSet k v l) = mapGet k' l := by
  unfold mapSet
  by_cases hh : mapHas k l
  · rw [if_pos hh, mapGet_map_replace_ne v h]
  · rw [if_neg hh]
    exact mapGet_append_ne v (fun hh2 : k = k' => h hh2.symm) l

theorem mapDelete_cons_hit {κ ν : Type} [DecidableEq κ] {k : κ}
    {e : κ × ν} (hk : e.1 = k) (l : List (κ × ν)) :
    mapDelete k (e :: l) = mapDelete k l := by
  unfold mapDelete; simp [hk]

theorem mapDelete_cons_miss {κ ν : Type} [DecidableEq κ] {k : κ}
    {e : κ × ν} (hk : ¬ e.1 = k) (l : List (κ × ν)) :
    mapDelete k (e :: l) = e :: mapDelete k l := by
  unfold mapDelete; simp [hk]

theorem mapGet_mapDelete_self {κ ν : Type} [DecidableEq κ] (k : κ) :
    ∀ l : List (κ × ν), mapGet k (mapDelete k l) = none := by
  intro l
  induction l with
  | nil => rfl
  | cons e rest ih =>
    by_cases hk : e.1 = k
    · rw [mapDelete_cons_hit hk, ih]
    · rw [mapDelete_cons_miss hk, mapGet_cons, if_neg hk, ih]

theorem mapGet_mapDelete_ne {κ ν : Type} [DecidableEq κ] {k k' : κ}
    (h : ¬ k' = k) :
    ∀ l : List (κ × ν), mapGet k' (mapDelete k l) = mapGet k' l := by
  intro l
  induction l with
  | nil => rfl
  | cons e rest ih =>
    by_cases hk : e.1 = k
    · rw [mapDelete_cons_hit hk, ih, mapGet_cons,
        if_neg (fun hh : e.1 = k' => h (hh.symm.trans hk))]
    · rw [mapDelete_cons_miss hk, mapGet_cons, mapGet_cons, ih]

theorem filter_filter_self {α : Type} (p : α → Bool) (l : List α) :
    (l.filter p).filter p = l.filter p := by
  induction l with
  | nil => rfl
  | cons a rest ih =>
    by_cases hp : p a
    · simp [List.filter_cons, hp, ih]
    · simp [List.filter_cons, hp, ih]

theorem mapSet_idem {κ ν : Type} [DecidableEq κ] (k : κ) (v : ν)
    (l : List (κ × ν)) : mapSet k v (mapSet k v l) = mapSet k v l := by
  have hh : mapHas k (mapSet k v l) = true :=
    mapHas_true_iff.mpr ⟨v, mapGet_mapSet_self k v l⟩
  have core : ∀ l' : List (κ × ν),
      (∀ e ∈ l', e.1 = k → e = (k, v)) →
      l'.map (fun e => if e.1 = k then (k, v) else e) = l' := by
    intro l'
    induction l' with
    | nil => intro _; rfl
    | cons e rest ih =>
      intro hfix
      by_cases hk : e.1 = k
      · have he : e = (k, v) := hfix e (List.mem_cons_self e rest) hk
        rw [List.map_cons, if_pos hk,
          ih (fun f hf => hfix f (List.mem_cons_of_mem e hf)), he]
      · rw [List.map_cons, if_neg hk,
          ih (fun f hf => hfix f (List.mem_cons_of_mem e hf))]
  have fixed : ∀ e ∈ mapSet k v l, e.1 = k → e = (k, v) := by
    unfold mapSet
    by_cases h : mapHas k l
    · rw [if_pos h]
      intro e he hk
      rcases List.mem_map.mp he with ⟨f, _, hf⟩
      by_cases hfk : f.1 = k
      · rw [if_pos hfk] at hf; exact hf.symm
      · rw [if_neg hfk] at hf; rw [← hf] at hk; exact absurd hk hfk
    · rw [if_neg h]
      intro e he hk
      rcases List.mem_append.mp he with he | he
      · exact absurd hk
          (mapGet_none_not_mem (mapHas_false_iff.mp (by simpa using h)) e he)
      · simpa using he
  conv_lhs => rw [mapSet, if_pos hh]
  exact core (mapSet k v l) fixed

/-! ## Registry lemmas -/

theorem Manager.ext2 {a b : Manager} (h1 : a.connections = b.connections)
    (h2 : a.socketMap = b.socketMap) (h3 : a.nextConnId = b.nextConnId) :
    a = b := by
  cases a; cases b; simp_all

theorem addConnection_socketMap (m : Manager) (sock : Nat) (uid : String) :
    (addConnection m sock uid).socketMap =
      mapSet sock ⟨m.nextConnId, sock, uid⟩ m.socketMap := rfl

theorem addConnection_group_self (m : Manager) (sock : Nat) (uid : String) :
    mapGet uid (addConnection m sock uid).connections =
      some ((mapGet uid m.connections).getD [] ++ [⟨m.nextConnId, sock, uid⟩]) := by
  by_cases hhas : mapHas uid m.connections
  · rcases mapHas_true_iff.mp hhas with ⟨s, hs⟩
    simp [addConnection, hhas, hs, mapGet_mapSet_self]
  · have hnone : mapGet uid m.connections = none :=
      mapHas_false_iff.mp (by simpa using hhas)
    simp [addConnection, hhas, hnone, mapGet_mapSet_self]

theorem addConnection_group_ne {u uid : String} (h : ¬ u = uid)
    (m : Manager) (sock : Nat) :
    mapGet u (addConnection m sock uid).connections =
      mapGet u m.connections := by
  by_cases hhas : mapHas uid m.connections
  · rcases mapHas_true_iff.mp hhas with ⟨s, hs⟩
    simp [addConnection, hhas, hs, mapGet_mapSet_self, mapGet_mapSet_ne _ h]
  · have hnone : mapGet uid m.connections = none :=
      mapHas_false_iff.mp (by simpa using hhas)
    simp [addConnection, hhas, hnone, mapGet_mapSet_self, mapGet_mapSet_ne _ h]

theorem removeConnection_of_unregistered {m : Manager} {sock : Nat}
    (h : mapGet sock m.socketMap = none) : removeConnection m sock = m := by
  unfold removeConnection
  simp only [h]

theorem removeConnection_of_group_absent {m : Manager} {sock : Nat}
    {conn : WSConn} (hsm : mapGet sock m.socketMap = some conn)
    (hg : mapGet conn.userId m.connections = none) :
    removeConnection m sock = m := by
  unfold removeConnection
  simp only [hsm, hg]

theorem removeConnection_found {m : Manager} {sock : Nat}
    {conn : WSConn} {s : List WSConn}
    (hsm : mapGet sock m.socketMap = some conn)
    (hg : mapGet conn.userId m.connections = some s) :
    removeConnection m sock =
      ⟨if (s.filter (fun c => ¬ c = conn)).length = 0
        then mapDelete conn.userId m.connections
        else mapSet conn.userId (s.filter (fun c => ¬ c = conn)) m.connections,
       m.socketMap, m.nextConnId⟩ := by
  unfold removeConnection
  simp only [hsm, hg]

theorem removeConnection_connections_found {m : Manager} {sock : Nat}
    {conn : WSConn} {s : List WSConn}
    (hsm : mapGet sock m.socketMap = some conn)
    (hg : mapGet conn.userId m.connections = some s) :
    (removeConnection m sock).connections =
      if (s.filter (fun c => ¬ c = conn)).length = 0
      then mapDelete conn.userId m.connections
      else mapSet conn.userId (s.filter (fun c => ¬ c = conn)) m.connections := by
  rw [removeConnection_found hsm hg]

theorem removeConnection_socketMap (m : Manager) (sock : Nat) :
    (removeConnection m sock).socketMap = m.socketMap := by
  cases hsm : mapGet sock m.socketMap with
  | none => rw [removeConnection_of_unregistered hsm]
  | some conn =>
    cases hg : mapGet conn.userId m.connections with
    | none => rw [removeConnection_of_group_absent hsm hg]
    | some s => rw [removeConnection_found hsm hg]

theorem removeConnection_nextConnId (m : Manager) (sock : Nat) :
    (removeConnection m sock).nextConnId = m.nextConnId := by
  cases hsm : mapGet sock m.socketMap with
  | none => rw [removeConnection_of_unregistered hsm]
  | some conn =>
    cases hg : mapGet conn.userId m.connections with
    | none => rw [removeConnection_of_group_absent hsm hg]
    | some s => rw [removeConnection_found hsm hg]

theorem addConnection_noEmpty {m : Manager} (h : NoEmptyGroups m)
    (sock : Nat) (uid : String) :
    NoEmptyGroups (addConnection m sock uid) := by
  intro u s hu
  by_cases huid : u = uid
  · subst huid
    rw [addConnection_group_self] at hu
    cases hu
    simp
  · rw [addConnection_group_ne huid] at hu
    exact h u s hu

theorem removeConnection_noEmpty {m : Manager} (h : NoEmptyGroups m)
    (sock : Nat) :
    NoEmptyGroups (removeConnection m sock) := by
  cases hsm : mapGet sock m.socketMap with
  | none => rw [removeConnection_of_unregistered hsm]; exact h
  | some conn =>
    cases hg : mapGet conn.userId m.connections with
    | none => rw [removeConnection_of_group_absent hsm hg]; exact h
    | some s =>
      intro u s2 hu
      rw [removeConnection_connections_found hsm hg] at hu
      by_cases hlen : (s.filter (fun c => ¬ c = conn)).length = 0
      · rw [if_pos hlen] at hu
        by_cases huid : u = conn.userId
        · subst huid; rw [mapGet_mapDelete_self] at hu; cases hu
        · rw [mapGet_mapDelete_ne huid] at hu; exact h u s2 hu
      · rw [if_neg hlen] at hu
        by_cases huid : u = conn.userId
        · subst huid
          rw [mapGet_mapSet_self] at hu
          cases hu
          intro hnil
          exact hlen (by rw [hnil]; rfl)
        · rw [mapGet_mapSet_ne _ huid] at hu; exact h u s2 hu

theorem applyOps_noEmpty :
    ∀ (ops : List RegOp) (m : Manager), NoEmptyGroups m →
      NoEmptyGroups (applyOps m ops)
  | [], _, h => h
  | .addOp s u :: ops, m, h =>
      applyOps_noEmpty ops _ (addConnection_noEmpty h s u)
  | .removeOp s :: ops, m, h =>
      applyOps_noEmpty ops _ (removeConnection_noEmpty h s)

theorem init_noEmpty : NoEmptyGroups Manager.init := by
  intro u s h
  simp [Manager.init, mapGet] at h

theorem removeConnection_idem (m : Manager) (sock : Nat) :
    removeConnection (removeConnection m sock) sock =
      removeConnection m sock := by
  cases hsm : mapGet sock m.socketMap with
  | none =>
    rw [removeConnection_of_unregistered hsm,
      removeConnection_of_unregistered hsm]
  | some conn =>
    cases hg : mapGet conn.userId m.connections with
    | none =>
      rw [removeConnection_of_group_absent hsm hg,
        removeConnection_of_group_absent hsm hg]
    | some s =>
      have hsm1 : mapGet sock (removeConnection m sock).socketMap = some conn := by
        rw [removeConnection_socketMap]; exact hsm
      by_cases hlen : (s.filter (fun c => ¬ c = conn)).length = 0
      · have hg1 : mapGet conn.userId (removeConnection m sock).connections = none := by
          rw [removeConnection_connections_found hsm hg, if_pos hlen,
            mapGet_mapDelete_self]
        exact removeConnection_of_group_absent hsm1 hg1
      · have hg1 : mapGet conn.userId (removeConnection m sock).connections =
            some (s.filter (fun c => ¬ c = conn)) := by
          rw [removeConnection_connections_found hsm hg, if_neg hlen,
            mapGet_mapSet_self]
        apply Manager.ext2
        · rw [removeConnection_connections_found hsm1 hg1,
            filter_filter_self, if_neg hlen,
            removeConnection_connections_found hsm hg, if_neg hlen,
            mapSet_idem]
        · rw [removeConnection_socketMap, removeConnection_socketMap]
        · rw [removeConnection_nextConnId, removeConnection_nextConnId]

theorem filterMap_open_sends (ready : Nat → Nat) (payload : String) :
    ∀ s : List WSConn,
      s.filterMap (fun c =>
        if ready c.socket = 1 then some (c.socket, payload) else none) =
        (s.filter (fun c => ready c.socket = 1)).map
          (fun c => (c.socket, payload)) := by
  intro s
  induction s with
  | nil => rfl
  | cons c rest ih =>
    by_cases hc : ready c.socket = 1
    · simp [List.filterMap_cons, List.filter_cons, hc, ih]
    · simp [List.filterMap_cons, List.filter_cons, hc, ih]

/-! ## Claim theorems: the connection registry -/

/-- C6: over every sequence of register (`addConnection`) and unregister
(`removeConnection`) operations starting from the fresh registry, a user
identity key is present in the per-user grouping map iff that user's
connection set is non-empty; since this holds after every prefix, any
operation that empties a set removes the key in the same step and no
dangling empty-set key is ever observable. -/
theorem C6_group_key_iff_nonempty (ops : List RegOp) (u : String) :
    mapHas u (applyOps Manager.init ops).connections = true ↔
      ∃ s, mapGet u (applyOps Manager.init ops).connections = some s ∧
        ¬ s = [] := by
  constructor
  · intro h
    rcases mapHas_true_iff.mp h with ⟨s, hs⟩
    exact ⟨s, hs, applyOps_noEmpty ops Manager.init init_noEmpty u s hs⟩
  · rintro ⟨s, hs, _⟩
    exact mapHas_true_iff.mpr ⟨s, hs⟩

/-- Witness for C6: a concrete register/register/unregister sequence
whose surviving key holds a non-empty set. -/
theorem C6_group_key_iff_nonempty_witness :
    ∃ s, mapGet "u1" (applyOps Manager.init
        [RegOp.addOp 1 "u1", RegOp.addOp 2 "u1",
         RegOp.removeOp 1]).connections = some s ∧ ¬ s = [] :=
  (C6_group_key_iff_nonempty
    [RegOp.addOp 1 "u1", RegOp.addOp 2 "u1", RegOp.removeOp 1] "u1").mp
    (by decide)

/-- C7: `broadcastToUser` with no group entry performs zero sends and
raises no error, and with a group entry it serializes the message once
and sends those identical bytes to exactly the connections whose socket
is OPEN (`readyState = 1`), silently skipping the rest; the registry
state is not consulted for removal (the operation returns sends only and
leaves the manager unchanged by construction). -/
theorem C7_broadcast_once_to_open (m : Manager) (ready : Nat → Nat)
    (uid : String) (msg : ServerMsg) :
    (mapGet uid m.connections = none → broadcastToUser m ready uid msg = []) ∧
    (∀ s, mapGet uid m.connections = some s →
      broadcastToUser m ready uid msg =
        (s.filter (fun c => ready c.socket = 1)).map
          (fun c => (c.socket, serializeMsg msg))) := by
  constructor
  · intro h
    unfold broadcastToUser
    simp only [h]
  · intro s hs
    unfold broadcastToUser
    simp only [hs]
    by_cases hempty : s.length = 0
    · rw [if_pos hempty]
      rw [List.length_eq_zero] at hempty
      subst hempty
      rfl
    · rw [if_neg hempty, filterMap_open_sends]

/-- Witness for C7: two sockets registered for the same user both
receive the same serialized bytes. -/
theorem C7_broadcast_once_to_open_witness :
    broadcastToUser (addConnection (addConnection Manager.init 1 "u1") 2 "u1")
        (fun _ => 1) "u1" ServerMsg.authOk =
      [(1, serializeMsg ServerMsg.authOk), (2, serializeMsg ServerMsg.authOk)] := by
  have h := (C7_broadcast_once_to_open
      (addConnection (addConnection Manager.init 1 "u1") 2 "u1")
      (fun _ => 1) "u1" ServerMsg.authOk).2
      [⟨0, 1, "u1"⟩, ⟨1, 2, "u1"⟩] (by decide)
  rw [h]
  rfl

/-- C9: unregistering a never-registered socket is a no-op, and
unregistering a socket a second time equals unregistering it once — the
grouping map, `getConnectionCount` and `getTotalConnections` are
unchanged by the redundant call (no double-decrement, no error). -/
theorem C9_remove_noop_and_idem (m : Manager) (sock : Nat) :
    (mapGet sock m.socketMap = none → removeConnection m sock = m) ∧
    removeConnection (removeConnection m sock) sock =
      removeConnection m sock ∧
    (∀ u, getConnectionCount (removeConnection (removeConnection m sock) sock) u =
      getConnectionCount (removeConnection m sock) u) ∧
    getTotalConnections (removeConnection (removeConnection m sock) sock) =
      getTotalConnections (removeConnection m sock) := by
  refine ⟨fun h => removeConnection_of_unregistered h,
    removeConnection_idem m sock, ?_, ?_⟩
  · intro u; rw [removeConnection_idem]
  · rw [removeConnection_idem]

/-- Witness for C9: removing a socket from the fresh registry (never
registered) leaves it unchanged. -/
theorem C9_remove_noop_and_idem_witness :
    removeConnection Manager.init 7 = Manager.init :=
  (C9_remove_noop_and_idem Manager.init 7).1 rfl

/-- C10: `removeConnection` never clears the socket→connection reverse
mapping — its `socketMap` is untouched for every input — so after
registering a socket under a user and then unregistering it,
`getUserId` still returns that user identity rather than none. -/
theorem C10_remove_keeps_reverse_mapping (m : Manager) (sock : Nat)
    (uid : String) :
    (removeConnection m sock).socketMap = m.socketMap ∧
    getUserId (removeConnection (addConnection m sock uid) sock) sock =
      some uid := by
  refine ⟨removeConnection_socketMap m sock, ?_⟩
  unfold getUserId
  rw [removeConnection_socketMap, addConnection_socketMap, mapGet_mapSet_self]
  rfl

/-! ## Dispatcher lemmas -/

theorem isUuid_ne_empty {s : String} (h : isUuid s = true) : ¬ s = "" := by
  intro he
  rw [he] at h
  exact absurd h (by decide)

theorem ridOr_of_uuid {s : String} (h : isUuid s = true) :
    ridOr (some s) = s := by
  show (if s = "" then "unknown" else s) = s
  rw [if_neg (isUuid_ne_empty h)]

theorem handleMessage_auth_todoCreate (env : AuthEnv) (mgr : Manager)
    (store : Store) (sess : Session) (sock : Nat) (rid : String)
    (d : CreateTodo) (uid : String)
    (hauth : sess.authenticated = true) (huid : sess.userId = some uid) :
    handleMessage env mgr store sess sock (.todoCreate rid d) =
      match todoSvcCreate store uid d with
      | .error _ =>
          ⟨sess, mgr, store,
           [.sendA sock (.ackErr (ridOr (some rid)) "INTERNAL_ERROR" "Internal server error")]⟩
      | .ok (todo, store') =>
          ⟨sess, mgr, store',
           [.sendA sock (.ackOk (ridOr (some rid)) (.todoE todo)),
            .broadcastA uid (.event "event.todo.created" (.todoE todo))]⟩ := by
  simp [handleMessage, hauth, huid, frameRequestId]

theorem handleMessage_auth_todoUpdate (env : AuthEnv) (mgr : Manager)
    (store : Store) (sess : Session) (sock : Nat) (rid tid : String)
    (d : UpdateTodo) (uid : String)
    (hauth : sess.authenticated = true) (huid : sess.userId = some uid) :
    handleMessage env mgr store sess sock (.todoUpdate rid tid d) =
      match todoSvcUpdate store uid tid d with
      | .error _ =>
          ⟨sess, mgr, store,
           [.sendA sock (.ackErr (ridOr (some rid)) "INTERNAL_ERROR" "Internal server error")]⟩
      | .ok (none, store') =>
          ⟨sess, mgr, store',
           [.sendA sock (.ackErr (ridOr (some rid)) "NOT_FOUND" "Todo not found")]⟩
      | .ok (some todo, store') =>
          ⟨sess, mgr, store',
           [.sendA sock (.ackOk (ridOr (some rid)) (.todoE todo)),
            .broadcastA uid (.event "event.todo.updated" (.todoE todo))]⟩ := by
  simp [handleMessage, hauth, huid, frameRequestId]

theorem handleMessage_auth_todoComplete (env : AuthEnv) (mgr : Manager)
    (store : Store) (sess : Session) (sock : Nat) (rid tid : String)
    (uid : String)
    (hauth : sess.authenticated = true) (huid : sess.userId = some uid) :
    handleMessage env mgr store sess sock (.todoComplete rid tid) =
      match todoSvcComplete store uid tid with
      | .error _ =>
          ⟨sess, mgr, store,
           [.sendA sock (.ackErr (ridOr (some rid)) "INTERNAL_ERROR" "Internal server error")]⟩
      | .ok (none, store') =>
          ⟨sess, mgr, store',
           [.sendA sock (.ackErr (ridOr (some rid)) "NOT_FOUND" "Todo not found")]⟩
      | .ok (some todo, store') =>
          ⟨sess, mgr, store',
           [.sendA sock (.ackOk (ridOr (some rid)) (.todoE todo)),
            .broadcastA uid (.event "event.todo.completed" (.todoE todo))]⟩ := by
  simp [handleMessage, hauth, huid, frameRequestId]

theorem handleMessage_auth_diaryCreate (env : AuthEnv) (mgr : Manager)
    (store : Store) (sess : Session) (sock : Nat) (rid : String)
    (d : CreateDiary) (uid : String)
    (hauth : sess.authenticated = true) (huid : sess.userId = some uid) :
    handleMessage env mgr store sess sock (.diaryCreate rid d) =
      match diarySvcCreate store uid d with
      | .error _ =>
          ⟨sess, mgr, store,
           [.sendA sock (.ackErr (ridOr (some rid)) "INTERNAL_ERROR" "Internal server error")]⟩
      | .ok (entry, store') =>
          ⟨sess, mgr, store',
           [.sendA sock (.ackOk (ridOr (some rid)) (.diaryE entry)),
            .broadcastA uid (.event "event.diary.created" (.diaryE entry))]⟩ := by
  simp [handleMessage, hauth, huid, frameRequestId]

theorem handleMessage_auth_moodLog (env : AuthEnv) (mgr : Manager)
    (store : Store) (sess : Session) (sock : Nat) (rid : String)
    (d : CreateMood) (uid : String)
    (hauth : sess.authenticated = true) (huid : sess.userId = some uid) :
    handleMessage env mgr store sess sock (.moodLog rid d) =
      match moodSvcCreate store uid d with
      | .error _ =>
          ⟨sess, mgr, store,
           [.sendA sock (.ackErr (ridOr (some rid)) "INTERNAL_ERROR" "Internal server error")]⟩
      | .ok (mood, store') =>
          ⟨sess, mgr, store',
           [.sendA sock (.ackOk (ridOr (some rid)) (.moodE mood)),
            .broadcastA uid (.event "event.mood.logged" (.moodE mood))]⟩ := by
  simp [handleMessage, hauth, huid, frameRequestId]

theorem acksToSocket_send_ack {a : ServerMsg} (ha : isAck a = true)
    (sock : Nat) (rest : List Action) :
    acksToSocket (.sendA sock a :: rest) sock = a :: acksToSocket rest sock := by
  unfold acksToSocket
  simp [List.filterMap_cons, ha]

theorem acksToSocket_broadcast (sock : Nat) (u : String) (msg : ServerMsg)
    (rest : List Action) :
    acksToSocket (.broadcastA u msg :: rest) sock = acksToSocket rest sock := by
  unfold acksToSocket
  simp [List.filterMap_cons]

/-- C2: every command frame handled by an authenticated session produces
exactly one ack, sent to the originating socket, and that ack's
`requestId` equals the `requestId` carried in the frame; broadcasts never
carry acks, so no further ack can reach the socket through the group
fan-out. -/
theorem C2_exactly_one_ack (env : AuthEnv) (mgr : Manager) (store : Store)
    (sess : Session) (sock : Nat) (m : InboundMsg) (uid : String)
    (hauth : sess.authenticated = true)
    (huid : sess.userId = some uid)
    (hcmd : isCommandFrame m = true)
    (hok : SchemaOk m) :
    (∃ a, acksToSocket (handleMessage env mgr store sess sock m).actions sock = [a] ∧
        ackRequestId a = frameRequestId m) ∧
    (∀ u msg2, Action.broadcastA u msg2 ∈
        (handleMessage env mgr store sess sock m).actions →
      isAck msg2 = false) := by
  cases m with
  | invalidJson => simp [isCommandFrame] at hcmd
  | authFrame token extra => simp [isCommandFrame] at hcmd
  | unmatched ty rid => simp [isCommandFrame] at hcmd
  | todoCreate rid d =>
    have hridor : ridOr (some rid) = rid := ridOr_of_uuid hok
    rw [handleMessage_auth_todoCreate env mgr store sess sock rid d uid hauth huid]
    cases hsvc : todoSvcCreate store uid d with
    | error e =>
      refine ⟨⟨ServerMsg.ackErr rid "INTERNAL_ERROR" "Internal server error",
        ?_, ?_⟩, ?_⟩
      · simp [acksToSocket, isAck, hridor]
      · simp [ackRequestId, frameRequestId]
      · intro u msg2 hmem
        simp at hmem
    | ok p =>
      obtain ⟨todo, store2⟩ := p
      refine ⟨⟨ServerMsg.ackOk rid (.todoE todo), ?_, ?_⟩, ?_⟩
      · simp [acksToSocket, isAck, hridor]
      · simp [ackRequestId, frameRequestId]
      · intro u msg2 hmem
        simp at hmem
        rw [hmem.2]
        rfl
  | todoUpdate rid tid d =>
    have hridor : ridOr (some rid) = rid := ridOr_of_uuid hok.1
    rw [handleMessage_auth_todoUpdate env mgr store sess sock rid tid d uid hauth huid]
    cases hsvc : todoSvcUpdate store uid tid d with
    | error e =>
      refine ⟨⟨ServerMsg.ackErr rid "INTERNAL_ERROR" "Internal server error",
        ?_, ?_⟩, ?_⟩
      · simp [acksToSocket, isAck, hridor]
      · simp [ackRequestId, frameRequestId]
      · intro u msg2 hmem
        simp at hmem
    | ok p =>
      obtain ⟨res, store2⟩ := p
      cases res with
      | none =>
        refine ⟨⟨ServerMsg.ackErr rid "NOT_FOUND" "Todo not found", ?_, ?_⟩, ?_⟩
        · simp [acksToSocket, isAck, hridor]
        · simp [ackRequestId, frameRequestId]
        · intro u msg2 hmem
          simp at hmem
      | some todo =>
        refine ⟨⟨ServerMsg.ackOk rid (.todoE todo), ?_, ?_⟩, ?_⟩
        · simp [acksToSocket, isAck, hridor]
        · simp [ackRequestId, frameRequestId]
        · intro u msg2 hmem
          simp at hmem
          rw [hmem.2]
          rfl
  | todoComplete rid tid =>
    have hridor : ridOr (some rid) = rid := ridOr_of_uuid hok.1
    rw [handleMessage_auth_todoComplete env mgr store sess sock rid tid uid hauth huid]
    cases hsvc : todoSvcComplete store uid tid with
    | error e =>
      refine ⟨⟨ServerMsg.ackErr rid "INTERNAL_ERROR" "Internal server error",
        ?_, ?_⟩, ?_⟩
      · simp [acksToSocket, isAck, hridor]
      · simp [ackRequestId, frameRequestId]
      · intro u msg2 hmem
        simp at hmem
    | ok p =>
      obtain ⟨res, store2⟩ := p
      cases res with
      | none =>
        refine ⟨⟨ServerMsg.ackErr rid "NOT_FOUND" "Todo not found", ?_, ?_⟩, ?_⟩
        · simp [acksToSocket, isAck, hridor]
        · simp [ackRequestId, frameRequestId]
        · intro u msg2 hmem
          simp at hmem
      | some todo =>
        refine ⟨⟨ServerMsg.ackOk rid (.todoE todo), ?_, ?_⟩, ?_⟩
        · simp [acksToSocket, isAck, hridor]
        · simp [ackRequestId, frameRequestId]
        · intro u msg2 hmem
          simp at hmem
          rw [hmem.2]
          rfl
  | diaryCreate rid d =>
    have hridor : ridOr (some rid) = rid := ridOr_of_uuid hok
    rw [handleMessage_auth_diaryCreate env mgr store sess sock rid d uid hauth huid]
    cases hsvc : diarySvcCreate store uid d with
    | error e =>
      refine ⟨⟨ServerMsg.ackErr rid "INTERNAL_ERROR" "Internal server error",
        ?_, ?_⟩, ?_⟩
      · simp [acksToSocket, isAck, hridor]
      · simp [ackRequestId, frameRequestId]
      · intro u msg2 hmem
        simp at hmem
    | ok p =>
      obtain ⟨entry, store2⟩ := p
      refine ⟨⟨ServerMsg.ackOk rid (.diaryE entry), ?_, ?_⟩, ?_⟩
      · simp [acksToSocket, isAck, hridor]
      · simp [ackRequestId, frameRequestId]
      · intro u msg2 hmem
        simp at hmem
        rw [hmem.2]
        rfl
  | moodLog rid d =>
    have hridor : ridOr (some rid) = rid := ridOr_of_uuid hok
    rw [handleMessage_auth_moodLog env mgr store sess sock rid d uid hauth huid]
    cases hsvc : moodSvcCreate store uid d with
    | error e =>
      refine ⟨⟨ServerMsg.ackErr rid "INTERNAL_ERROR" "Internal server error",
        ?_, ?_⟩, ?_⟩
      · simp [acksToSocket, isAck, hridor]
      · simp [ackRequestId, frameRequestId]
      · intro u msg2 hmem
        simp at hmem
    | ok p =>
      obtain ⟨mood, store2⟩ := p
      refine ⟨⟨ServerMsg.ackOk rid (.moodE mood), ?_, ?_⟩, ?_⟩
      · simp [acksToSocket, isAck, hridor]
      · simp [ackRequestId, frameRequestId]
      · intro u msg2 hmem
        simp at hmem
        rw [hmem.2]
        rfl

/-- Witness for C2: a concrete `todo.create` on an authenticated session
yields exactly one ack and it carries the frame's requestId. -/
theorem C2_exactly_one_ack_witness :
    ∃ a, acksToSocket (handleMessage ⟨none, fun _ => none⟩ Manager.init
        ⟨["u1"], [], [], [], 0, true⟩ ⟨true, some "u1", false, false⟩ 1
        (.todoCreate "123e4567-e89b-12d3-a456-426614174000" ⟨"Buy milk"⟩)).actions 1 =
      [a] ∧
    ackRequestId a = frameRequestId
      (.todoCreate "123e4567-e89b-12d3-a456-426614174000" ⟨"Buy milk"⟩) :=
  (C2_exactly_one_ack ⟨none, fun _ => none⟩ Manager.init
    ⟨["u1"], [], [], [], 0, true⟩ ⟨true, some "u1", false, false⟩ 1
    (.todoCreate "123e4567-e89b-12d3-a456-426614174000" ⟨"Buy milk"⟩) "u1"
    rfl rfl rfl (by decide)).1

theorem mem_broadcastToUser {m : Manager} {uid : String} {s : List WSConn}
    (hs : mapGet uid m.connections = some s) (ready : Nat → Nat)
    (msg : ServerMsg) {c : WSConn} (hc : c ∈ s) (hopen : ready c.socket = 1) :
    (c.socket, serializeMsg msg) ∈ broadcastToUser m ready uid msg := by
  unfold broadcastToUser
  simp only [hs]
  have hlen : ¬ s.length = 0 := by
    intro h0
    rw [List.length_eq_zero] at h0
    subst h0
    cases hc
  rw [if_neg hlen]
  exact List.mem_filterMap.mpr ⟨c, hc, by rw [if_pos hopen]⟩

theorem deliverAll_pair (mgr : Manager) (ready : Nat → Nat) (a b : Action) :
    deliverAll mgr ready [a, b] =
      deliver mgr ready a ++ deliver mgr ready b := by
  simp [deliverAll]

/-- C3: every successful mutation command on an authenticated session
produces, in this order, one `ok:true` ack to the originating socket
carrying the resulting entity, then one broadcast of the corresponding
`event.<domain>.<action>` carrying the same entity; the registry is not
mutated by the command, and the broadcast is delivered to every
connection of the user's group whose socket is open — which includes the
originating connection, since it is registered in that group at
authentication time. -/
theorem C3_success_ack_then_broadcast (env : AuthEnv) (mgr : Manager)
    (store : Store) (sess : Session) (sock : Nat) (m : InboundMsg)
    (uid : String)
    (hauth : sess.authenticated = true)
    (huid : sess.userId = some uid)
    (hok : SchemaOk m)
    (hsucc : mutationSucceeds store uid m = true) :
    ∃ e rid, frameRequestId m = some rid ∧
      (handleMessage env mgr store sess sock m).actions =
        [.sendA sock (.ackOk rid e),
         .broadcastA uid (.event (eventNameOf m) e)] ∧
      (handleMessage env mgr store sess sock m).mgr = mgr ∧
      (∀ (ready : Nat → Nat) (s : List WSConn) (c : WSConn),
        mapGet uid mgr.connections = some s → c ∈ s → ready c.socket = 1 →
          (c.socket, serializeMsg (.event (eventNameOf m) e)) ∈
            deliverAll (handleMessage env mgr store sess sock m).mgr ready
              (handleMessage env mgr store sess sock m).actions) := by
  cases m with
  | invalidJson => simp [mutationSucceeds] at hsucc
  | authFrame token extra => simp [mutationSucceeds] at hsucc
  | unmatched ty rid => simp [mutationSucceeds] at hsucc
  | todoCreate rid d =>
    have hdb : store.dbOk = true := hsucc
    have hcreate : todoSvcCreate store uid d =
        .ok (⟨"todo-" ++ toString store.nextId, uid, d.title, "open"⟩,
          { store with
              todos := store.todos ++
                [⟨"todo-" ++ toString store.nextId, uid, d.title, "open"⟩],
              nextId := store.nextId + 1 }) := by
      unfold todoSvcCreate
      rw [if_pos hdb]
    rw [handleMessage_auth_todoCreate env mgr store sess sock rid d uid hauth huid,
      hcreate, ridOr_of_uuid hok]
    refine ⟨.todoE ⟨"todo-" ++ toString store.nextId, uid, d.title, "open"⟩,
      rid, rfl, rfl, rfl, ?_⟩
    intro ready s c hgrp hc hopen
    rw [deliverAll_pair]
    exact List.mem_append_right _ (mem_broadcastToUser hgrp ready _ hc hopen)
  | todoUpdate rid tid d =>
    rw [mutationSucceeds, Bool.and_eq_true] at hsucc
    obtain ⟨hdb, hany⟩ := hsucc
    cases hfind : store.todos.find? (fun t => t.id = tid && t.userId = uid) with
    | none =>
      rw [List.find?_eq_none] at hfind
      rcases List.any_eq_true.mp hany with ⟨t, ht, hp⟩
      exact absurd hp (hfind t ht)
    | some t =>
      have hupd : todoSvcUpdate store uid tid d =
          .ok (some { t with title := d.title.getD t.title,
                             status := d.status.getD t.status },
            { store with todos := store.todos.map (fun u =>
                if u.id = tid && u.userId = uid
                then { t with title := d.title.getD t.title,
                              status := d.status.getD t.status }
                else u) }) := by
        unfold todoSvcUpdate
        rw [if_pos hdb, hfind]
      rw [handleMessage_auth_todoUpdate env mgr store sess sock rid tid d uid hauth huid,
        hupd, ridOr_of_uuid hok.1]
      refine ⟨.todoE { t with title := d.title.getD t.title,
                              status := d.status.getD t.status },
        rid, rfl, rfl, rfl, ?_⟩
      intro ready s c hgrp hc hopen
      rw [deliverAll_pair]
      exact List.mem_append_right _ (mem_broadcastToUser hgrp ready _ hc hopen)
  | todoComplete rid tid =>
    rw [mutationSucceeds, Bool.and_eq_true] at hsucc
    obtain ⟨hdb, hany⟩ := hsucc
    cases hfind : store.todos.find? (fun t => t.id = tid && t.userId = uid) with
    | none =>
      rw [List.find?_eq_none] at hfind
      rcases List.any_eq_true.mp hany with ⟨t, ht, hp⟩
      exact absurd hp (hfind t ht)
    | some t =>
      have hcpl : todoSvcComplete store uid tid =
          .ok (some { t with status := "done" },
            { store with todos := store.todos.map (fun u =>
                if u.id = tid && u.userId = uid
                then { t with status := "done" } else u) }) := by
        unfold todoSvcComplete
        rw [if_pos hdb, hfind]
      rw [handleMessage_auth_todoComplete env mgr store sess sock rid tid uid hauth huid,
        hcpl, ridOr_of_uuid hok.1]
      refine ⟨.todoE { t with status := "done" }, rid, rfl, rfl, rfl, ?_⟩
      intro ready s c hgrp hc hopen
      rw [deliverAll_pair]
      exact List.mem_append_right _ (mem_broadcastToUser hgrp ready _ hc hopen)
  | diaryCreate rid d =>
    have hdb : store.dbOk = true := hsucc
    have hcreate : diarySvcCreate store uid d =
        .ok (⟨"diary-" ++ toString store.nextId, uid, d.rawText⟩,
          { store with
              diaries := store.diaries ++
                [⟨"diary-" ++ toString store.nextId, uid, d.rawText⟩],
              nextId := store.nextId + 1 }) := by
      unfold diarySvcCreate
      rw [if_pos hdb]
    rw [handleMessage_auth_diaryCreate env mgr store sess sock rid d uid hauth huid,
      hcreate, ridOr_of_uuid hok]
    refine ⟨.diaryE ⟨"diary-" ++ toString store.nextId, uid, d.rawText⟩,
      rid, rfl, rfl, rfl, ?_⟩
    intro ready s c hgrp hc hopen
    rw [deliverAll_pair]
    exact List.mem_append_right _ (mem_broadcastToUser hgrp ready _ hc hopen)
  | moodLog rid d =>
    have hdb : store.dbOk = true := hsucc
    have hcreate : moodSvcCreate store uid d =
        .ok (⟨"mood-" ++ toString store.nextId, uid, d.moodScore⟩,
          { store with
              moods := store.moods ++
                [⟨"mood-" ++ toString store.nextId, uid, d.moodScore⟩],
              nextId := store.nextId + 1 }) := by
      unfold moodSvcCreate
      rw [if_pos hdb]
    rw [handleMessage_auth_moodLog env mgr store sess sock rid d uid hauth huid,
      hcreate, ridOr_of_uuid hok]
    refine ⟨.moodE ⟨"mood-" ++ toString store.nextId, uid, d.moodScore⟩,
      rid, rfl, rfl, rfl, ?_⟩
    intro ready s c hgrp hc hopen
    rw [deliverAll_pair]
    exact List.mem_append_right _ (mem_broadcastToUser hgrp ready _ hc hopen)

/-- Witness for C3: a concrete successful `todo.create` produces the
ack first and the `event.todo.created` broadcast second. -/
theorem C3_success_ack_then_broadcast_witness :
    ∃ e rid,
      frameRequestId (InboundMsg.todoCreate uuidEx ⟨"Buy milk"⟩) = some rid ∧
      (handleMessage envNoSvc (addConnection Manager.init 1 "u1") storeU1
          sessAuthU1 1 (InboundMsg.todoCreate uuidEx ⟨"Buy milk"⟩)).actions =
        [Action.sendA 1 (ServerMsg.ackOk rid e),
         Action.broadcastA "u1" (ServerMsg.event
           (eventNameOf (InboundMsg.todoCreate uuidEx ⟨"Buy milk"⟩)) e)] := by
  obtain ⟨e, rid, h1, h2, h3, h4⟩ :=
    C3_success_ack_then_broadcast envNoSvc (addConnection Manager.init 1 "u1")
      storeU1 sessAuthU1 1 (InboundMsg.todoCreate uuidEx ⟨"Buy milk"⟩) "u1"
      rfl rfl (by decide) rfl
  exact ⟨e, rid, h1, h2⟩

/-- C8: a `todo.update` or `todo.complete` command whose `todoId` does
not name a todo owned by the session's user — including an id that names
another user's todo — produces one `ok:false` ack with code NOT_FOUND
("Todo not found"), performs no broadcast, and leaves the store
unchanged. -/
theorem C8_not_found_no_broadcast (env : AuthEnv) (mgr : Manager)
    (store : Store) (sess : Session) (sock : Nat) (uid rid tid : String)
    (d : UpdateTodo)
    (hauth : sess.authenticated = true)
    (huid : sess.userId = some uid)
    (hdb : store.dbOk = true)
    (hok : isUuid rid = true)
    (hnone : store.todos.any (fun t => t.id = tid && t.userId = uid) = false) :
    ((handleMessage env mgr store sess sock (.todoUpdate rid tid d)).actions =
        [.sendA sock (.ackErr rid "NOT_FOUND" "Todo not found")] ∧
      hasBroadcast (handleMessage env mgr store sess sock
        (.todoUpdate rid tid d)).actions = false ∧
      (handleMessage env mgr store sess sock (.todoUpdate rid tid d)).store =
        store) ∧
    ((handleMessage env mgr store sess sock (.todoComplete rid tid)).actions =
        [.sendA sock (.ackErr rid "NOT_FOUND" "Todo not found")] ∧
      hasBroadcast (handleMessage env mgr store sess sock
        (.todoComplete rid tid)).actions = false ∧
      (handleMessage env mgr store sess sock (.todoComplete rid tid)).store =
        store) := by
  have hfind : store.todos.find? (fun t => t.id = tid && t.userId = uid) = none := by
    rw [List.find?_eq_none]
    intro t ht
    intro hp
    have htrue : store.todos.any (fun t => t.id = tid && t.userId = uid) = true :=
      List.any_eq_true.mpr ⟨t, ht, hp⟩
    rw [hnone] at htrue
    simp at htrue
  have hupd : todoSvcUpdate store uid tid d = .ok (none, store) := by
    unfold todoSvcUpdate
    rw [if_pos hdb, hfind]
  have hcpl : todoSvcComplete store uid tid = .ok (none, store) := by
    unfold todoSvcComplete
    rw [if_pos hdb, hfind]
  constructor
  · rw [handleMessage_auth_todoUpdate env mgr store sess sock rid tid d uid hauth huid,
      hupd, ridOr_of_uuid hok]
    exact ⟨rfl, rfl, rfl⟩
  · rw [handleMessage_auth_todoComplete env mgr store sess sock rid tid uid hauth huid,
      hcpl, ridOr_of_uuid hok]
    exact ⟨rfl, rfl, rfl⟩

/-- Witness for C8: updating a todo that exists but belongs to a
different user (`"u2"`) yields NOT_FOUND, no broadcast, unchanged
store. -/
theorem C8_not_found_no_broadcast_witness :
    (handleMessage envNoSvc Manager.init
        ⟨["u1"], [⟨"t1", "u2", "Secret", "open"⟩], [], [], 0, true⟩
        sessAuthU1 1 (.todoUpdate uuidEx "t1" ⟨none, none⟩)).actions =
      [Action.sendA 1 (ServerMsg.ackErr uuidEx "NOT_FOUND" "Todo not found")] ∧
    hasBroadcast (handleMessage envNoSvc Manager.init
        ⟨["u1"], [⟨"t1", "u2", "Secret", "open"⟩], [], [], 0, true⟩
        sessAuthU1 1 (.todoUpdate uuidEx "t1" ⟨none, none⟩)).actions = false :=
  ⟨((C8_not_found_no_broadcast envNoSvc Manager.init
      ⟨["u1"], [⟨"t1", "u2", "Secret", "open"⟩], [], [], 0, true⟩
      sessAuthU1 1 "u1" uuidEx "t1" ⟨none, none⟩
      rfl rfl rfl (by decide) (by decide)).1).1,
   ((C8_not_found_no_broadcast envNoSvc Manager.init
      ⟨["u1"], [⟨"t1", "u2", "Secret", "open"⟩], [], [], 0, true⟩
      sessAuthU1 1 "u1" uuidEx "t1" ⟨none, none⟩
      rfl rfl rfl (by decide) (by decide)).1).2.1⟩

/-- Counterexample to C1 as stated: the service token is configured as
`"svc"`, the target identity `"u1"` is valid (it exists in the user
store) and accompanies the auth frame, yet authentication does not
succeed — the session stays unauthenticated and the reply is
`auth.error`, not `auth.ok`. -/
theorem C1_counterexample :
    (handleMessage ⟨some "svc", fun _ => none⟩ Manager.init storeU1
        Session.connecting 1
        (.authFrame "svc" (some "u1"))).sess.authenticated = false ∧
    (handleMessage ⟨some "svc", fun _ => none⟩ Manager.init storeU1
        Session.connecting 1 (.authFrame "svc" (some "u1"))).actions =
      [Action.sendA 1 (ServerMsg.authError
        "Service token not supported for WebSocket. Use JWT.")] :=
  ⟨rfl, rfl⟩

/-- C1 (amended): an auth frame presenting the configured service token
is always answered with `auth.error` ("Service token not supported for
WebSocket. Use JWT."), whether or not a target user identity accompanies
the frame, and the session state is unchanged — it never transitions to
Authenticated on the privileged credential. -/
theorem C1_service_token_always_rejected (env : AuthEnv) (mgr : Manager)
    (store : Store) (sess : Session) (sock : Nat) (token : String)
    (extra : Option String)
    (hconn : sess.authenticated = false)
    (hsvc : serviceTokenMatches env token = true) :
    handleMessage env mgr store sess sock (.authFrame token extra) =
      ⟨sess, mgr, store,
       [.sendA sock (.authError
         "Service token not supported for WebSocket. Use JWT.")]⟩ := by
  simp [handleMessage, hconn, hsvc]

/-- Witness for the amended C1: concrete service-token auth frames with
and without an accompanying identity are both rejected. -/
theorem C1_service_token_always_rejected_witness :
    handleMessage ⟨some "svc", fun _ => none⟩ Manager.init storeU1
        Session.connecting 2 (.authFrame "svc" (some "u1")) =
      ⟨Session.connecting, Manager.init, storeU1,
       [.sendA 2 (.authError
         "Service token not supported for WebSocket. Use JWT.")]⟩ ∧
    handleMessage ⟨some "svc", fun _ => none⟩ Manager.init storeU1
        Session.connecting 2 (.authFrame "svc" none) =
      ⟨Session.connecting, Manager.init, storeU1,
       [.sendA 2 (.authError
         "Service token not supported for WebSocket. Use JWT.")]⟩ :=
  ⟨C1_service_token_always_rejected ⟨some "svc", fun _ => none⟩ Manager.init
    storeU1 Session.connecting 2 "svc" (some "u1") rfl (by decide),
   C1_service_token_always_rejected ⟨some "svc", fun _ => none⟩ Manager.init
    storeU1 Session.connecting 2 "svc" none rfl (by decide)⟩

/-! ## Session-state lemmas for the temporal claims -/

theorem not_auth_true {sess : Session} (hconn : sess.authenticated = false) :
    ¬ sess.authenticated = true := by
  rw [hconn]
  exact Bool.false_ne_true

/-- Handling one frame either leaves the session state untouched, or
(the successful-auth transition) leaves it authenticated with the
deadline timer cancelled. -/
theorem handleMessage_sess_cases (env : AuthEnv) (mgr : Manager)
    (store : Store) (sess : Session) (sock : Nat) (m : InboundMsg) :
    (handleMessage env mgr store sess sock m).sess = sess ∨
    ((handleMessage env mgr store sess sock m).sess.authenticated = true ∧
     (handleMessage env mgr store sess sock m).sess.timerActive = false) := by
  cases m <;> simp only [handleMessage] <;> (repeat' split) <;> simp

/-- The handler never emits a `socket.close` effect (closes are issued
only by the deadline timer). -/
theorem handleMessage_no_close (env : AuthEnv) (mgr : Manager)
    (store : Store) (sess : Session) (sock : Nat) (m : InboundMsg)
    (code : Nat) :
    hasCloseWithCode (handleMessage env mgr store sess sock m).actions code =
      false := by
  cases m <;> simp only [handleMessage] <;> (repeat' split) <;> rfl

/-- While the session is unauthenticated, a frame never mutates the
store, never yields an `ok:true` ack, and can reach an authenticated
state only with the timer cancelled. -/
theorem handleMessage_unauth (env : AuthEnv) (mgr : Manager) (store : Store)
    (sess : Session) (sock : Nat) (m : InboundMsg)
    (hconn : sess.authenticated = false) :
    (handleMessage env mgr store sess sock m).store = store ∧
    hasOkAck (handleMessage env mgr store sess sock m).actions = false ∧
    ((handleMessage env mgr store sess sock m).sess.authenticated = true →
      (handleMessage env mgr store sess sock m).sess.timerActive = false) := by
  cases m <;> simp only [handleMessage] <;> (repeat' split) <;>
    simp_all [hasOkAck, isOkAck]

theorem hasOkAck_append (as bs : List Action) :
    hasOkAck (as ++ bs) = (hasOkAck as || hasOkAck bs) := by
  unfold hasOkAck
  exact List.any_append

theorem hasCloseWithCode_append (as bs : List Action) (code : Nat) :
    hasCloseWithCode (as ++ bs) code =
      (hasCloseWithCode as code || hasCloseWithCode bs code) := by
  unfold hasCloseWithCode
  exact List.any_append

/-- One runtime event preserves the Authenticated state. -/
theorem stepEvent_auth_monotone (env : AuthEnv) (c : SessionConfig)
    (sock : Nat) (e : SocketEvent) (h : c.sess.authenticated = true) :
    (stepEvent env c sock e).1.sess.authenticated = true := by
  cases e with
  | msgEvt m =>
    rcases handleMessage_sess_cases env c.mgr c.store c.sess sock m with hs | hs
    · show (handleMessage env c.mgr c.store c.sess sock m).sess.authenticated = true
      rw [hs]
      exact h
    · exact hs.1
  | timerFire =>
    unfold stepEvent
    rw [if_neg (by simp [h])]
    exact h
  | closeEvt => exact h

theorem runTrace_auth_monotone (env : AuthEnv) (sock : Nat) :
    ∀ (es : List SocketEvent) (c : SessionConfig),
      c.sess.authenticated = true →
      (runTrace env sock c es).1.sess.authenticated = true
  | [], _, h => h
  | e :: es, c, h =>
      runTrace_auth_monotone env sock es (stepEvent env c sock e).1
        (stepEvent_auth_monotone env c sock e h)

/-- One runtime event from an unauthenticated session: store unchanged,
no `ok:true` ack, and any transition into Authenticated cancels the
timer. -/
theorem stepEvent_unauth (env : AuthEnv) (c : SessionConfig) (sock : Nat)
    (e : SocketEvent) (hconn : c.sess.authenticated = false) :
    (stepEvent env c sock e).1.store = c.store ∧
    hasOkAck (stepEvent env c sock e).2 = false ∧
    ((stepEvent env c sock e).1.sess.authenticated = true →
      (stepEvent env c sock e).1.sess.timerActive = false) := by
  cases e with
  | msgEvt m => exact handleMessage_unauth env c.mgr c.store c.sess sock m hconn
  | timerFire =>
    unfold stepEvent
    rw [if_pos hconn]
    exact ⟨rfl, rfl, fun _ => rfl⟩
  | closeEvt => exact ⟨rfl, rfl, fun _ => rfl⟩

/-- Over a trace that never completes authentication, the store is never
mutated and no `ok:true` ack is ever emitted. -/
theorem runTrace_unauth (env : AuthEnv) (sock : Nat) :
    ∀ (es : List SocketEvent) (c : SessionConfig),
      c.sess.authenticated = false →
      (runTrace env sock c es).1.sess.authenticated = false →
      (runTrace env sock c es).1.store = c.store ∧
      hasOkAck (runTrace env sock c es).2 = false
  | [], _, _, _ => ⟨rfl, rfl⟩
  | e :: es, c, hconn, hnever => by
    have hstep_unauth : (stepEvent env c sock e).1.sess.authenticated = false := by
      cases hbool : (stepEvent env c sock e).1.sess.authenticated
      · rfl
      · have hmono := runTrace_auth_monotone env sock es (stepEvent env c sock e).1 hbool
        have hne : (runTrace env sock (stepEvent env c sock e).1 es).1.sess.authenticated =
            false := hnever
        rw [hne] at hmono
        exact Bool.noConfusion hmono
    have hstep := stepEvent_unauth env c sock e hconn
    have hrest := runTrace_unauth env sock es (stepEvent env c sock e).1 hstep_unauth hnever
    refine ⟨?_, ?_⟩
    · show (runTrace env sock (stepEvent env c sock e).1 es).1.store = c.store
      rw [hrest.1, hstep.1]
    · show hasOkAck ((stepEvent env c sock e).2 ++
        (runTrace env sock (stepEvent env c sock e).1 es).2) = false
      rw [hasOkAck_append, hstep.2.1, hrest.2]
      rfl

/-- C4: a frame received while the session is still unauthenticated
never produces an `ok:true` ack and never mutates the storage
collaborator; consequently, over any event trace that never completes
authentication, the store stays identical and no `ok:true` ack is ever
emitted — a command can reach storage only after a successful auth
frame. -/
theorem C4_unauth_no_ok_ack_no_mutation (env : AuthEnv) (sock : Nat)
    (c : SessionConfig) (m : InboundMsg) (es : List SocketEvent)
    (hconn : c.sess.authenticated = false)
    (hnever : (runTrace env sock c es).1.sess.authenticated = false) :
    (handleMessage env c.mgr c.store c.sess sock m).store = c.store ∧
    hasOkAck (handleMessage env c.mgr c.store c.sess sock m).actions = false ∧
    (runTrace env sock c es).1.store = c.store ∧
    hasOkAck (runTrace env sock c es).2 = false := by
  obtain ⟨h1, h2, _⟩ := handleMessage_unauth env c.mgr c.store c.sess sock m hconn
  obtain ⟨h3, h4⟩ := runTrace_unauth env sock es c hconn hnever
  exact ⟨h1, h2, h3, h4⟩

/-- Witness for C4: a premature `todo.create` on a connecting session is
rejected without touching the store, both as a single frame and along a
one-frame trace. -/
theorem C4_unauth_no_ok_ack_no_mutation_witness :
    (handleMessage envNoSvc Manager.init storeU1 Session.connecting 1
        (InboundMsg.todoCreate uuidEx ⟨"Buy milk"⟩)).store = storeU1 ∧
    hasOkAck (handleMessage envNoSvc Manager.init storeU1 Session.connecting 1
        (InboundMsg.todoCreate uuidEx ⟨"Buy milk"⟩)).actions = false ∧
    (runTrace envNoSvc 1 ⟨Session.connecting, Manager.init, storeU1⟩
        [SocketEvent.msgEvt (InboundMsg.todoCreate uuidEx ⟨"Buy milk"⟩)]).1.store =
      storeU1 ∧
    hasOkAck (runTrace envNoSvc 1 ⟨Session.connecting, Manager.init, storeU1⟩
        [SocketEvent.msgEvt (InboundMsg.todoCreate uuidEx ⟨"Buy milk"⟩)]).2 =
      false :=
  C4_unauth_no_ok_ack_no_mutation envNoSvc 1
    ⟨Session.connecting, Manager.init, storeU1⟩
    (InboundMsg.todoCreate uuidEx ⟨"Buy milk"⟩)
    [SocketEvent.msgEvt (InboundMsg.todoCreate uuidEx ⟨"Buy milk"⟩)]
    rfl (by decide)

theorem validTrace_append (env : AuthEnv) (sock : Nat) :
    ∀ (xs ys : List SocketEvent) (c : SessionConfig),
      validTrace env sock c (xs ++ ys) =
        (validTrace env sock c xs &&
          validTrace env sock (runTrace env sock c xs).1 ys)
  | [], ys, c => by
    show validTrace env sock c ys = (true && validTrace env sock c ys)
    rw [Bool.true_and]
  | x :: xs, ys, c => by
    show (eventAllowed c.sess x &&
        validTrace env sock (stepEvent env c sock x).1 (xs ++ ys)) =
      ((eventAllowed c.sess x &&
          validTrace env sock (stepEvent env c sock x).1 xs) &&
        validTrace env sock
          (runTrace env sock (stepEvent env c sock x).1 xs).1 ys)
    rw [validTrace_append env sock xs ys (stepEvent env c sock x).1,
      Bool.and_assoc]

/-- Once the socket is closed and the deadline timer can no longer fire,
the runtime can deliver no further event: the only valid continuation is
the empty one. -/
theorem validTrace_closed_nil (env : AuthEnv) (sock : Nat)
    (c : SessionConfig) (hclosed : c.sess.closed = true)
    (htimer : c.sess.timerActive = false) :
    ∀ es, validTrace env sock c es = true → es = [] := by
  intro es h
  cases es with
  | nil => rfl
  | cons e rest =>
    exfalso
    have h2 : (eventAllowed c.sess e &&
        validTrace env sock (stepEvent env c sock e).1 rest) = true := h
    rw [Bool.and_eq_true] at h2
    obtain ⟨hallow, _⟩ := h2
    cases e <;> simp [eventAllowed, hclosed, htimer] at hallow

/-- After the deadline fires on a still-unauthenticated session, no
further event — in particular no frame — is delivered on that socket. -/
theorem no_event_after_timeout (env : AuthEnv) (sock : Nat)
    (c : SessionConfig) (pre post : List SocketEvent)
    (hv : validTrace env sock c (pre ++ SocketEvent.timerFire :: post) = true)
    (hunauth : (runTrace env sock c pre).1.sess.authenticated = false) :
    post = [] := by
  rw [validTrace_append, Bool.and_eq_true] at hv
  obtain ⟨_, hrest⟩ := hv
  have hrest2 : (eventAllowed (runTrace env sock c pre).1.sess .timerFire &&
      validTrace env sock
        (stepEvent env (runTrace env sock c pre).1 sock .timerFire).1 post) =
      true := hrest
  rw [Bool.and_eq_true] at hrest2
  obtain ⟨_, hpost⟩ := hrest2
  have hclosed : (stepEvent env (runTrace env sock c pre).1 sock
      .timerFire).1.sess.closed = true := by
    unfold stepEvent
    rw [if_pos hunauth]
  have htimer : (stepEvent env (runTrace env sock c pre).1 sock
      .timerFire).1.sess.timerActive = false := by
    unfold stepEvent
    rw [if_pos hunauth]
  exact validTrace_closed_nil env sock _ hclosed htimer post hpost

/-- From an authenticated session, no later event ever emits the
timeout-specific `socket.close` — the deadline branch is unreachable. -/
theorem no_timeout_close_after_auth (env : AuthEnv) (sock : Nat) :
    ∀ (es : List SocketEvent) (c : SessionConfig),
      c.sess.authenticated = true →
      validTrace env sock c es = true →
      hasCloseWithCode (runTrace env sock c es).2 authTimeoutCloseCode = false
  | [], _, _, _ => rfl
  | e :: es, c, hauth, hv => by
    have hv2 : (eventAllowed c.sess e &&
        validTrace env sock (stepEvent env c sock e).1 es) = true := hv
    rw [Bool.and_eq_true] at hv2
    obtain ⟨_, hrest⟩ := hv2
    have hstepclose : hasCloseWithCode (stepEvent env c sock e).2
        authTimeoutCloseCode = false := by
      cases e with
      | msgEvt m =>
        exact handleMessage_no_close env c.mgr c.store c.sess sock m
          authTimeoutCloseCode
      | timerFire =>
        unfold stepEvent
        rw [if_neg (by simp [hauth])]
        rfl
      | closeEvt => rfl
    have hrest2 := no_timeout_close_after_auth env sock es
      (stepEvent env c sock e).1 (stepEvent_auth_monotone env c sock e hauth)
      hrest
    show hasCloseWithCode ((stepEvent env c sock e).2 ++
      (runTrace env sock (stepEvent env c sock e).1 es).2)
        authTimeoutCloseCode = false
    rw [hasCloseWithCode_append, hstepclose, hrest2]
    rfl

/-- C5: the authentication deadline is the fixed 10-second constant; on
expiry while still unauthenticated the handler sends `auth.error` and
closes the socket with code 4001, which is distinct from the normal
closure code 1000, and no later frame on that socket is processed (the
only valid continuation of the trace is empty); a successful auth frame
cancels the timer, and from an authenticated session no timeout close is
ever emitted. -/
theorem C5_auth_deadline :
    AUTH_TIMEOUT_MS = 10000 ∧
    authTimeoutCloseCode = 4001 ∧
    ¬ authTimeoutCloseCode = normalCloseCode ∧
    (∀ (env : AuthEnv) (c : SessionConfig) (sock : Nat),
      c.sess.authenticated = false →
      stepEvent env c sock .timerFire =
        (⟨⟨c.sess.authenticated, c.sess.userId, false, true⟩, c.mgr, c.store⟩,
         [.sendA sock (.authError "Authentication timeout"),
          .closeA sock authTimeoutCloseCode "Authentication timeout"])) ∧
    (∀ (env : AuthEnv) (sock : Nat) (c : SessionConfig)
        (pre post : List SocketEvent),
      validTrace env sock c (pre ++ SocketEvent.timerFire :: post) = true →
      (runTrace env sock c pre).1.sess.authenticated = false →
      post = []) ∧
    (∀ (env : AuthEnv) (c : SessionConfig) (sock : Nat) (m : InboundMsg),
      c.sess.authenticated = false →
      (stepEvent env c sock (.msgEvt m)).1.sess.authenticated = true →
      (stepEvent env c sock (.msgEvt m)).1.sess.timerActive = false) ∧
    (∀ (env : AuthEnv) (sock : Nat) (c : SessionConfig)
        (es : List SocketEvent),
      c.sess.authenticated = true →
      validTrace env sock c es = true →
      hasCloseWithCode (runTrace env sock c es).2 authTimeoutCloseCode =
        false) := by
  refine ⟨rfl, rfl, by decide, ?_, ?_, ?_, ?_⟩
  · intro env c sock hconn
    unfold stepEvent
    rw [if_pos hconn]
  · intro env sock c pre post hv hunauth
    exact no_event_after_timeout env sock c pre post hv hunauth
  · intro env c sock m hconn
    exact (stepEvent_unauth env c sock (.msgEvt m) hconn).2.2
  · intro env sock c es hauth hv
    exact no_timeout_close_after_auth env sock es c hauth hv

/-- Witness for C5: the deadline firing on a fresh connecting session
emits `auth.error` and the 4001 close. -/
theorem C5_auth_deadline_witness :
    stepEvent envNoSvc ⟨Session.connecting, Manager.init, storeU1⟩ 1
        .timerFire =
      (⟨⟨false, none, false, true⟩, Manager.init, storeU1⟩,
       [.sendA 1 (.authError "Authentication timeout"),
        .closeA 1 authTimeoutCloseCode "Authentication timeout"]) :=
  C5_auth_deadline.2.2.2.1 envNoSvc
    ⟨Session.connecting, Manager.init, storeU1⟩ 1 rfl

end Kalix
